import Mathlib

/-!
Verification of the tool-planning and response-orchestration core of the
`cf-agents-sdk` chat agent (source of record: `worker/agent.ts`, the unified
planner revision, together with the three tool adapters `getWeather.ts`,
`getWiki.ts`, `getISS.ts`).

The embedding is shallow: JavaScript strings are Lean `String`s (sequences of
characters; `.length`, `.slice`, `.trim` are modelled on the character list),
JS numbers that the code guards with `Number.isFinite` are modelled as
`Option ℚ` (`none` stands for a non-finite value, which every use site skips),
timestamps are `Nat` milliseconds, and the three effectful collaborators
(the inference endpoint, the tool adapter fetches, the streamed completion)
are supplied as explicit oracle values consumed by the turn function.
-/

namespace CfAgents

/-- The whitespace set of JavaScript `String.prototype.trim` /
`trimEnd` (ECMA WhiteSpace ∪ LineTerminator code points). -/
def jsWhitespace : List Char :=
  ['\t', '\x0b', '\x0c', ' ', '\u00a0', '\u1680',
   '\u2000', '\u2001', '\u2002', '\u2003', '\u2004', '\u2005',
   '\u2006', '\u2007', '\u2008', '\u2009', '\u200a',
   '\u202f', '\u205f', '\u3000', '\ufeff',
   '\n', '\r', '\u2028', '\u2029']

/-- Is `c` JavaScript whitespace? -/
def jsIsWs (c : Char) : Bool := jsWhitespace.contains c

/-- JS `s.trimEnd()`: drop trailing whitespace. -/
def jsTrimEnd (s : String) : String := ⟨(s.data.reverse.dropWhile jsIsWs).reverse⟩

/-- JS `s.trimStart()`: drop leading whitespace. -/
def jsTrimStart (s : String) : String := ⟨s.data.dropWhile jsIsWs⟩

/-- JS `s.trim()`. -/
def jsTrim (s : String) : String := jsTrimEnd (jsTrimStart s)

/-- JS `s.length` (character count of the embedded string). -/
def jsLen (s : String) : Nat := s.data.length

/-- JS `s.slice(0, n)`: the first `n` characters. -/
def jsSlice (s : String) (n : Nat) : String := ⟨s.data.take n⟩

/-- JS `Math.round`: round half towards positive infinity. -/
def jsRound (q : ℚ) : ℤ := ⌊q + 1/2⌋

/-- JS `x.toFixed(2)` on the rationals used here: two decimal digits
(decimal rendering of the rounded hundredths). -/
def toFixed2 (q : ℚ) : String :=
  let n : ℤ := jsRound (q * 100)
  let sign := if n < 0 then "-" else ""
  let m := n.natAbs
  sign ++ toString (m / 100) ++ "." ++ (if m % 100 < 10 then "0" else "") ++ toString (m % 100)

/-! ## Session data model (`worker/agent.ts`: `Msg`, `State`, mutation sites) -/

/-- Message role, `'user' | 'assistant' | 'tool'`. -/
inductive Role
  | user
  | assistant
  | tool
deriving Repr, DecidableEq

/-- One stored row: `type Msg = { role; content; ts }`. -/
structure Msg where
  role : Role
  content : String
  ts : Nat
deriving Repr, DecidableEq

/-- Durable-Object session state:
`type State = { model; messages; createdAt; expiresAt }`. -/
structure AgentState where
  model : String
  messages : List Msg
  createdAt : Nat
  expiresAt : Nat
deriving Repr, DecidableEq

/-- `const DAY = 86_400_000` (the rolling expiry window, ms). -/
def DAY : Nat := 86400000

/-- `const DEFAULT_MODEL = "@cf/meta/llama-4-scout-17b-16e-instruct"`. -/
def DEFAULT_MODEL : String := "@cf/meta/llama-4-scout-17b-16e-instruct"

/-- `initialState`: empty log, default model, expiry one window after creation. -/
def initialState (t : Nat) : AgentState :=
  { model := DEFAULT_MODEL, messages := [], createdAt := t, expiresAt := t + DAY }

/-- The `INSERT INTO messages … ; setState({messages: […, msg], expiresAt: Date.now() + DAY})`
mutation pattern (used for the user row, tool rows and `#saveAssistant`).
`tsv` is the `Date.now()` stamped into the row, `texp` the later `Date.now()`
used for the refreshed expiry. -/
def pushMsgS (s : AgentState) (role : Role) (content : String) (tsv texp : Nat) : AgentState :=
  { s with messages := s.messages ++ [⟨role, content, tsv⟩], expiresAt := texp + DAY }

/-- `#saveAssistant`: append an assistant row and refresh the expiry. -/
def saveAssistantS (s : AgentState) (text : String) (tsv texp : Nat) : AgentState :=
  pushMsgS s Role.assistant text tsv texp

/-- The `model` frame handler: `setState({...state, model, expiresAt: Date.now() + DAY})`. -/
def setModelS (s : AgentState) (m : String) (t : Nat) : AgentState :=
  { s with model := m, expiresAt := t + DAY }

/-- The `reset` frame handler: clear messages, keep the model, reset both timestamps. -/
def resetS (s : AgentState) (t : Nat) : AgentState :=
  { model := s.model, messages := [], createdAt := t, expiresAt := t + DAY }

/-- `onConnect` replay: reload rows from SQL and refresh the expiry. -/
def connectReplayS (s : AgentState) (rows : List Msg) (t : Nat) : AgentState :=
  { s with messages := rows, expiresAt := t + DAY }

/-! ## Tool result shapes (`worker/tools/*.ts`) -/

/-- `WeatherResult` place: `{ name; region?; country?; timezone }`. -/
structure WeatherPlace where
  name : String
  region : Option String
  country : Option String
  timezone : String
deriving Repr, DecidableEq

/-- One forecast day `{ date; tMin; tMax; pop; code? }`. The temperature and
precipitation numbers are JS numbers that the summarizer guards with
`Number.isFinite`; `none` models a non-finite value (e.g. the `NaN`
defaults that `getWeather` inserts for missing source entries). -/
structure WeatherDay where
  date : String
  tMin : Option ℚ
  tMax : Option ℚ
  pop : Option ℚ
  code : Option ℤ
deriving Repr, DecidableEq

/-- `WeatherResult`: success carries place, unit label (`"°C"`/`"°F"`) and
the ordered daily records; failure carries the error string. -/
inductive WeatherResult
  | ok (place : WeatherPlace) (tempUnit : String) (daily : List WeatherDay)
  | err (error : String)
deriving Repr, DecidableEq

/-- `WikiResult` (`getWiki.ts`): success carries title, optional description,
extract, optional thumbnail, page URL and language. -/
inductive WikiResult
  | ok (title : String) (description : Option String) (extract : String)
       (thumbnailUrl : Option String) (pageUrl : String) (lang : String)
  | err (error : String)
deriving Repr, DecidableEq

/-- `IssResult` (`getISS.ts`): success carries coordinates, optional
telemetry and the local fetch timestamp. -/
inductive IssResult
  | ok (lat lon : ℚ) (altitude_km velocity_kmh : Option ℚ)
       (visibility : Option String) (ts : Nat)
  | err (error : String)
deriving Repr, DecidableEq

/-- A tool schema as presented to the inference endpoint (name and
natural-language description of the `function` declaration). -/
structure ToolSchema where
  name : String
  description : String
deriving Repr, DecidableEq

/-- `getWeatherToolSchema` (`getWeather.ts`). -/
def getWeatherToolSchema : ToolSchema :=
  ⟨"getWeather", "Fetch a 5–7 day forecast using Open-Meteo and answer weather questions."⟩

/-- `getWikiToolSchema` (`getWiki.ts`). -/
def getWikiToolSchema : ToolSchema :=
  ⟨"getWiki", "Look up a topic or person on Wikipedia and return a short, factual summary with a link and optional thumbnail."⟩

/-- `getISSToolSchema` (`getISS.ts`). -/
def getISSToolSchema : ToolSchema :=
  ⟨"getISS", "Fetch the International Space Station\x27s current position (latitude/longitude) and basic telemetry."⟩

/-! ## Summary Synthesizer (`worker/agent.ts`: `#summarizeWiki`,
`#summarizeWeatherIntent`, `#summarizeISS`) -/

/-- `#summarizeWiki`: `"{title} — {snippet}"`, truncating the trimmed extract
past 480 characters (`text.length > 480 ? text.slice(0, 480).trimEnd() + "…" : text`). -/
def summarizeWiki : WikiResult → String
  | .err e => "I couldn\x27t fetch Wikipedia: " ++ e
  | .ok title _ extract _ _ _ =>
    let t := if title = "" then "Summary" else title
    let text := jsTrim extract
    if text = "" then t ++ " — summary unavailable."
    else
      let snippet := if 480 < jsLen text then jsTrimEnd (jsSlice text 480) ++ "…" else text
      t ++ " — " ++ snippet

/-- `[place.name, place.region, place.country].filter(Boolean).join(", ") || "that location"`. -/
def weatherName (p : WeatherPlace) : String :=
  let parts := ([some p.name, p.region, p.country].filterMap id).filter (fun s => s ≠ "")
  let joined := String.intercalate ", " parts
  if joined = "" then "that location" else joined

/-- Running extremes of `#summarizeWeatherIntent`:
`hi = -Infinity, lo = Infinity, maxPop = -1` before the loop; `none` for
`hi`/`lo` means the infinite sentinel is still in place (no finite value seen). -/
structure WxAcc where
  hi : Option ℚ
  lo : Option ℚ
  maxPop : ℚ
deriving Repr, DecidableEq

/-- One iteration of the extremes loop: update `hi`/`lo`/`maxPop` from a day,
skipping non-finite fields. -/
def wxStep (acc : WxAcc) (d : WeatherDay) : WxAcc :=
  { hi := match d.tMax, acc.hi with
      | some v, none => some v
      | some v, some h => some (if h < v then v else h)
      | none, h => h
    lo := match d.tMin, acc.lo with
      | some v, none => some v
      | some v, some l => some (if v < l then v else l)
      | none, l => l
    maxPop := match d.pop with
      | some v => if acc.maxPop < v then v else acc.maxPop
      | none => acc.maxPop }

/-- The extremes loop over the (already sliced) days. -/
def wxFold (days : List WeatherDay) : WxAcc :=
  days.foldl wxStep ⟨none, none, -1⟩

/-- The sentence list built by `#summarizeWeatherIntent` for a non-empty,
already `slice(0, min(7, n))`-ed day list: headline, rain-risk sentence,
optional clothing sentence, optional freezing warning, in push order. -/
def weatherLines (name : String) (tempUnit : String) (days : List WeatherDay) : List String :=
  let acc := wxFold days
  let hiR : Option ℤ := acc.hi.map jsRound
  let loR : Option ℤ := acc.lo.map jsRound
  let line1 : String :=
    match hiR, loR with
    | some h, some l =>
        "In " ++ name ++ ", highs reach ~" ++ toString h ++ tempUnit ++
          " and lows dip to ~" ++ toString l ++ tempUnit ++ " this week."
    | some h, none => "In " ++ name ++ ", highs reach ~" ++ toString h ++ tempUnit ++ " this week."
    | none, some l => "In " ++ name ++ ", lows dip to ~" ++ toString l ++ tempUnit ++ " this week."
    | none, none => "In " ++ name ++ ", typical seasonal temperatures this week."
  let line2 : String :=
    if 70 ≤ acc.maxPop then
      "Rain is likely (peak chance ~" ++ toString (jsRound acc.maxPop) ++
        "%) — pack rain gear (umbrella or waterproof jacket)."
    else if 40 ≤ acc.maxPop then
      "Some showers possible (peak ~" ++ toString (jsRound acc.maxPop) ++
        "%) — consider a light rain jacket."
    else "Low rain risk overall."
  let isHot : Bool := match hiR with | some h => decide (30 ≤ h) | none => false
  let isWarmDry : Bool := match hiR with
    | some h => decide (24 ≤ h) && decide (acc.maxPop < 40)
    | none => false
  let isCold : Bool := match loR with | some l => decide (l ≤ 5) | none => false
  let line3 : List String :=
    if isHot then ["It’ll feel hot — dress light and use sunscreen."]
    else if isWarmDry then ["Warm and mostly dry — shorts and light layers are fine."]
    else if isCold then ["Chilly at times — bring warm layers (and gloves/hat if you get cold easily)."]
    else match hiR, loR with
      | some h, some l =>
        if 10 ≤ h - l then ["Temps swing through the day — pack layers."]
        else ["Mild, steady temps — simple layers should be fine."]
      | _, _ => []
  let line4 : List String :=
    match loR with
    | some l =>
        if l ≤ 0 ∧ 50 ≤ acc.maxPop then
          ["Freezing conditions possible with precipitation — use winter shoes/boots."]
        else []
    | none => []
  [line1, line2] ++ line3 ++ line4

/-- `#summarizeWeatherIntent`: deterministic forecast summary.
Uses the first `min(7, daily.length)` day records and joins the selected
sentences with single spaces. -/
def summarizeWeatherIntent : WeatherResult → String
  | .err _ => "I couldn\x27t fetch the weather. Please double-check the location."
  | .ok place tempUnit daily =>
    let name := weatherName place
    if daily = [] then "I couldn\x27t find a daily forecast for " ++ name ++ "."
    else
      String.intercalate " " (weatherLines name tempUnit (daily.take (min 7 daily.length)))

/-- `#summarizeISS`: one fixed-template sentence (coordinates to two
decimals, telemetry rounded or `"unknown"`, visibility or `"n/a"`). -/
def summarizeISS : IssResult → String
  | .err e => "I couldn\x27t fetch the ISS position: " ++ e
  | .ok lat lon alt vel vis _ =>
    let altS := match alt with | some a => toString (jsRound a) ++ " km" | none => "unknown"
    let velS := match vel with | some v => toString (jsRound v) ++ " km/h" | none => "unknown"
    let visS := match vis with
      | some v => if v = "" then "n/a" else v
      | none => "n/a"
    "The ISS is currently near " ++ toFixed2 lat ++ "°, " ++ toFixed2 lon ++ "° at ~" ++
      altS ++ ", moving ~" ++ velS ++ " (visibility: " ++ visS ++ ")."

/-! ## Unified Planner (`worker/agent.ts`: `#planWithAllTools`) -/

/-- A decoded JavaScript value as far as the planner inspects one:
`vundef` = `undefined`, `vstr` = a string, `vobj` = an object with its
(possibly absent) `query` and `lang` fields, `vother` = any non-object,
non-string value. -/
inductive JsVal
  | vundef
  | vstr (s : String)
  | vobj (query : Option JsVal) (lang : Option JsVal)
  | vother

/-- `call.function.arguments` together with the outcome of `JSON.parse`
when it is a string (`none` = the parse throws). -/
inductive JsArg
  | undef
  | str (s : String) (parsed : Option JsVal)
  | val (v : JsVal)

/-- One entry of the `tool_calls` array: optional `function.name` and the
argument payload. -/
structure AiToolCall where
  name : Option String
  args : JsArg

/-- The awaited outcome of the single `ai.run` planning call: an exception,
a non-object result, or an object whose `tool_calls` field is either not an
array (`none`) or an array of proposals. -/
inductive AiOut
  | exn
  | notObj
  | obj (toolCalls : Option (List AiToolCall))

/-- The planner's decision: no tool, or a tool with its raw argument value. -/
inductive PlanDecision
  | noTool
  | weather (args : JsVal)
  | wiki (args : JsVal)
  | iss

/-- The closed set of known tool names checked by `#planWithAllTools`. -/
def knownToolNames : List String := ["getWeather", "getWiki", "getISS"]

/-- `let parsedArgs = rawArgs; if (typeof rawArgs === "string") try JSON.parse
catch { parsedArgs = {} }` — `undefined` stays `undefined`. -/
def parseArgs : JsArg → JsVal
  | .undef => .vundef
  | .str _ (some v) => v
  | .str _ none => .vobj none none
  | .val v => v

/-- `#planWithAllTools` decode stage: inspect only the first proposal,
resolve its name against the closed tool set, parse and validate the
arguments per tool. An endpoint exception or malformed response means no
tool. -/
def planWithAllTools : AiOut → PlanDecision
  | .exn => .noTool
  | .notObj => .noTool
  | .obj none => .noTool
  | .obj (some []) => .noTool
  | .obj (some (call :: _)) =>
    match call.name with
    | none => .noTool
    | some n =>
      if n = "" then .noTool
      else if ¬ (n ∈ knownToolNames) then .noTool
      else
        let parsedArgs := parseArgs call.args
        if n = "getWeather" then .weather parsedArgs
        else if n = "getWiki" then
          match parsedArgs with
          | .vobj q _ =>
            match q with
            | some (.vstr qs) => if jsTrim qs ≠ "" then .wiki parsedArgs else .noTool
            | _ => .noTool
          | _ => .noTool
        else if n = "getISS" then .iss
        else .noTool

/-! ## Streamed completion (`worker/agent.ts`: `#streamAssistant`) -/

/-- Outbound frames on the session connection. -/
inductive OutFrame
  | ready (state : AgentState)
  | delta (text : String)
  | done
  | cleared
  | tool (tool : String) (status : String) (message : Option String) (withResult : Bool)
deriving Repr, DecidableEq

/-- The awaited outcome of the streaming `ai.run` call: either not a
`ReadableStream` (with the string payload when the result is a string), or
a stream delivering the listed decoded text pieces, after which the reader
either completes or throws (`err`). The SSE frame decoding is abstracted to
the sequence of decoded `response` pieces it yields. -/
inductive StreamOut
  | notStream (text : Option String)
  | stream (pieces : List String) (err : Bool)
deriving Repr, DecidableEq

/-- `"_(stream error)_"`, the fallback persisted when a stream fails with
nothing accumulated. -/
def placeholderText : String := "_(stream error)_"

/-- The accumulation loop: concatenate each non-empty piece into `full` and
forward it as a `delta` frame. -/
def streamAccum (pieces : List String) : String × List OutFrame :=
  pieces.foldl
    (fun acc p => if p = "" then acc else (acc.1 ++ p, acc.2 ++ [OutFrame.delta p]))
    ("", [])

/-- `#streamAssistant`, reduced to the persisted text and the frames sent:
on a non-stream result persist the string (or `"[no response]"`); on a
stream, accumulate; on an error, `full = full || "_(stream error)_"`; a
`done` frame is always sent (`finally`). -/
def streamAssistant : StreamOut → String × List OutFrame
  | .notStream t => ((match t with | some s => s | none => "[no response]"), [OutFrame.done])
  | .stream pieces err =>
    let a := streamAccum pieces
    let full := if err then (if a.1 = "" then placeholderText else a.1) else a.1
    (full, a.2 ++ [OutFrame.done])

/-! ## Turn Orchestrator (`worker/agent.ts`: `onMessage` and the per-tool
branches) -/

/-- One call to the inference endpoint: a planning call carrying the tool
schema catalog it presents, or a streaming free-text call. -/
inductive AiCall
  | plan (tools : List ToolSchema)
  | stream
deriving Repr, DecidableEq

/-- Is this endpoint call a planning call? -/
def AiCall.isPlan : AiCall → Bool
  | .plan _ => true
  | .stream => false

/-- `payload.tools = [getWeatherToolSchema, getWikiToolSchema, getISSToolSchema]`:
the full catalog presented by the single planning call. -/
def allToolSchemas : List ToolSchema :=
  [getWeatherToolSchema, getWikiToolSchema, getISSToolSchema]

/-- Fixed per-tool acknowledgement sent before executing the adapter. -/
def issAck : String := "Let me check the ISS position…"

/-- Fixed apology persisted when `getISS` fails. -/
def issApology : String := "I couldn\x27t fetch the ISS position. Please try again in a moment."

/-- Fixed per-tool acknowledgement sent before executing the adapter. -/
def weatherAck : String := "Sure — I’ll check the forecast using getWeather…"

/-- Fixed apology persisted when `getWeather` fails. -/
def weatherApology : String := "I couldn\x27t fetch the weather. Please check the location and try again."

/-- Fixed per-tool acknowledgement sent before executing the adapter. -/
def wikiAck : String := "Let me look that up on Wikipedia…"

/-- Fixed apology persisted when `getWiki` fails. -/
def wikiApology : String := "I couldn\x27t fetch Wikipedia. Please refine the topic or try another query."

/-- Content of a persisted tool row:
`JSON.stringify({type: "tool_result", tool, result})`. The serialization of
the result value is modelled by its `Repr` rendering (`resultRepr`); no
claim inspects this text, only the row's role. -/
def toolRowContent (tool : String) (resultRepr : String) : String :=
  "\x7b\"type\":\"tool_result\",\"tool\":\"" ++ tool ++ "\",\"result\":" ++ resultRepr ++ "\x7d"

/-- The oracle values a chat turn consumes: the planning call's outcome, each
adapter's result were it executed, and the streaming call's outcome. -/
structure Oracles where
  planOut : AiOut
  weatherRes : WeatherResult
  wikiRes : WikiResult
  issRes : IssResult
  streamOut : StreamOut

/-- Everything a turn produces: the updated session state, the outbound
frames in send order, and the inference-endpoint calls in issue order. -/
structure TurnOut where
  state : AgentState
  frames : List OutFrame
  calls : List AiCall

/-- The `data.type === "chat"` branch of `onMessage`, after the empty-input
check: persist the user row, invoke the unified planner once, then branch
per decision. `tf i` is the value of the `i`-th `Date.now()` call of the
branch taken, in source order. -/
def chatTurn (s : AgentState) (text : String) (o : Oracles) (tf : Nat → Nat) : TurnOut :=
  let s1 := pushMsgS s Role.user text (tf 0) (tf 1)
  let planCall := AiCall.plan allToolSchemas
  match planWithAllTools o.planOut with
  | .iss =>
    let s2 := saveAssistantS s1 issAck (tf 2) (tf 3)
    let fr0 := [OutFrame.delta issAck, OutFrame.done,
                OutFrame.tool "getISS" "started" (some "Understanding intent…") false,
                OutFrame.tool "getISS" "step" (some "Fetching live position…") false]
    match o.issRes with
    | .err e =>
      let s3 := saveAssistantS s2 issApology (tf 4) (tf 5)
      ⟨s3,
       fr0 ++ [OutFrame.tool "getISS" "error" (some e) false,
               OutFrame.delta issApology, OutFrame.done],
       [planCall]⟩
    | .ok lat lon alt vel vis ts =>
      let res := IssResult.ok lat lon alt vel vis ts
      let s3 := pushMsgS s2 Role.tool (toolRowContent "getISS" (reprStr res)) (tf 4) (tf 5)
      let summary := summarizeISS res
      let s4 := saveAssistantS s3 summary (tf 6) (tf 7)
      ⟨s4,
       fr0 ++ [OutFrame.tool "getISS" "done" (some "Position updated") true,
               OutFrame.delta summary, OutFrame.done],
       [planCall]⟩
  | .weather _args =>
    let s2 := saveAssistantS s1 weatherAck (tf 2) (tf 3)
    let fr0 := [OutFrame.delta weatherAck, OutFrame.done,
                OutFrame.tool "getWeather" "started" (some "Planning…") false,
                OutFrame.tool "getWeather" "step" (some "Fetching forecast from Open-Meteo…") false]
    match o.weatherRes with
    | .err e =>
      let s3 := saveAssistantS s2 weatherApology (tf 4) (tf 5)
      ⟨s3,
       fr0 ++ [OutFrame.tool "getWeather" "error" (some e) false,
               OutFrame.delta weatherApology, OutFrame.done],
       [planCall]⟩
    | .ok place tempUnit daily =>
      let res := WeatherResult.ok place tempUnit daily
      let s3 := pushMsgS s2 Role.tool (toolRowContent "getWeather" (reprStr res)) (tf 4) (tf 5)
      let summary := summarizeWeatherIntent res
      let s4 := saveAssistantS s3 summary (tf 6) (tf 7)
      ⟨s4,
       fr0 ++ [OutFrame.tool "getWeather" "done" (some "Forecast ready") true,
               OutFrame.delta summary, OutFrame.done],
       [planCall]⟩
  | .wiki _args =>
    let s2 := saveAssistantS s1 wikiAck (tf 2) (tf 3)
    let fr0 := [OutFrame.delta wikiAck, OutFrame.done,
                OutFrame.tool "getWiki" "started" (some "Understanding query…") false,
                OutFrame.tool "getWiki" "step" (some "Searching Wikipedia…") false]
    match o.wikiRes with
    | .err e =>
      let s3 := saveAssistantS s2 wikiApology (tf 4) (tf 5)
      ⟨s3,
       fr0 ++ [OutFrame.tool "getWiki" "error" (some e) false,
               OutFrame.delta wikiApology, OutFrame.done],
       [planCall]⟩
    | .ok title d extract th url lang =>
      let res := WikiResult.ok title d extract th url lang
      let s3 := pushMsgS s2 Role.tool (toolRowContent "getWiki" (reprStr res)) (tf 4) (tf 5)
      let summary := summarizeWiki res
      let s4 := saveAssistantS s3 summary (tf 6) (tf 7)
      ⟨s4,
       fr0 ++ [OutFrame.tool "getWiki" "done" (some "Found entry") true,
               OutFrame.delta summary, OutFrame.done],
       [planCall]⟩
  | .noTool =>
    let sr := streamAssistant o.streamOut
    let s2 := saveAssistantS s1 sr.1 (tf 2) (tf 3)
    ⟨s2, sr.2, [planCall, AiCall.stream]⟩

/-- Inbound frames: `{type: "chat"|"reset"|"model", …}`; `invalid` models an
unparseable payload or a missing `type` discriminator. -/
inductive InFrame
  | chat (text : String)
  | reset
  | modelFrame (m : Option String)
  | invalid

/-- `onMessage`: dispatch on the frame's `type`. A `model` frame only takes
effect when `data.model` is truthy (present and non-empty); `reset` clears
the log and acknowledges with a `cleared` frame; `chat` trims the text,
silently drops empty input, and otherwise runs the chat turn. -/
def onMessageM (s : AgentState) (fr : InFrame) (o : Oracles) (tf : Nat → Nat) : TurnOut :=
  match fr with
  | .invalid => ⟨s, [], []⟩
  | .modelFrame none => ⟨s, [], []⟩
  | .modelFrame (some m) =>
    if m = "" then ⟨s, [], []⟩ else ⟨setModelS s m (tf 0), [], []⟩
  | .reset => ⟨resetS s (tf 0), [OutFrame.cleared], []⟩
  | .chat raw =>
    let text := jsTrim raw
    if text = "" then ⟨s, [], []⟩ else chatTurn s text o tf

/-- The reachable session states: `initialState` plus the five mutation
sites of the source (row append, model set, reset, connect replay). The
hypothesis `s.createdAt ≤ t` on the expiry-refreshing steps encodes that
`Date.now()` is monotone, i.e. never earlier than the session's creation. -/
inductive Reach : AgentState → Prop
  | init (t : Nat) : Reach (initialState t)
  | push (s : AgentState) (role : Role) (content : String) (tsv texp : Nat) :
      Reach s → s.createdAt ≤ texp → Reach (pushMsgS s role content tsv texp)
  | modelSet (s : AgentState) (m : String) (t : Nat) :
      Reach s → s.createdAt ≤ t → Reach (setModelS s m t)
  | reset (s : AgentState) (t : Nat) : Reach s → Reach (resetS s t)
  | connect (s : AgentState) (rows : List Msg) (t : Nat) :
      Reach s → s.createdAt ≤ t → Reach (connectReplayS s rows t)

/-- Role/content view of a message log (timestamps stripped). -/
def msgView (l : List Msg) : List (Role × String) :=
  l.map (fun m => (m.role, m.content))

/-! ## Helper lemmas -/

/-- A string with a non-empty left part of an append is non-empty. -/
theorem append_ne_empty_left (a b : String) (ha : a.data ≠ []) : a ++ b ≠ "" := by
  intro h
  have hd := congrArg String.data h
  rw [String.data_append] at hd
  simp only [List.append_eq_nil] at hd
  exact ha hd.1

/-- The strict-update step of the extremes loop is `max`. -/
theorem iteLt_eq_max (a v : ℚ) : (if a < v then v else a) = max a v := by
  rcases le_or_lt v a with h | h
  · rw [if_neg (not_lt.mpr h), max_eq_left h]
  · rw [if_pos h, max_eq_right h.le]

/-- The `maxPop` component of the extremes loop is a fold of `max` over the
finite per-day precipitation probabilities. -/
theorem foldl_wxStep_maxPop (days : List WeatherDay) (acc : WxAcc) :
    (days.foldl wxStep acc).maxPop
      = (days.filterMap WeatherDay.pop).foldl max acc.maxPop := by
  induction days generalizing acc with
  | nil => rfl
  | cons d ds ih =>
    simp only [List.foldl_cons, List.filterMap_cons]
    cases h : d.pop with
    | none =>
      rw [ih]
      simp [wxStep, h]
    | some v =>
      rw [ih]
      simp [wxStep, h, iteLt_eq_max]

/-- `wxFold` starts `maxPop` at the sentinel `-1`. -/
theorem wxFold_maxPop (days : List WeatherDay) :
    (wxFold days).maxPop = (days.filterMap WeatherDay.pop).foldl max (-1) :=
  foldl_wxStep_maxPop days _

/-- The initial accumulator bounds a `max` fold from below. -/
theorem le_foldl_max (l : List ℚ) (i : ℚ) : i ≤ l.foldl max i := by
  induction l generalizing i with
  | nil => exact le_refl i
  | cons x xs ih => exact le_trans (le_max_left i x) (ih (max i x))

/-- Every member bounds a `max` fold from below. -/
theorem mem_le_foldl_max (l : List ℚ) (i p : ℚ) (hp : p ∈ l) : p ≤ l.foldl max i := by
  induction l generalizing i with
  | nil => cases hp
  | cons x xs ih =>
    rcases List.mem_cons.mp hp with rfl | h
    · exact le_trans (le_max_right i p) (le_foldl_max xs _)
    · exact ih _ h

/-- A `max` fold returns its initial value or a member. -/
theorem foldl_max_cases (l : List ℚ) (i : ℚ) :
    l.foldl max i = i ∨ l.foldl max i ∈ l := by
  induction l generalizing i with
  | nil => exact Or.inl rfl
  | cons x xs ih =>
    rw [List.foldl_cons]
    rcases ih (max i x) with h | h
    · rcases max_choice i x with h2 | h2
      · exact Or.inl (h.trans h2)
      · exact Or.inr (List.mem_cons.mpr (Or.inl (h.trans h2)))
    · exact Or.inr (List.mem_cons_of_mem x h)

/-- The second sentence of the weather summary is the rain-risk sentence,
selected on the folded `maxPop`. -/
theorem weatherLines_rain_sentence (name tempUnit : String) (days : List WeatherDay) :
    (weatherLines name tempUnit days)[1]? =
      some (if 70 ≤ (wxFold days).maxPop then
              "Rain is likely (peak chance ~" ++ toString (jsRound (wxFold days).maxPop) ++
                "%) — pack rain gear (umbrella or waterproof jacket)."
            else if 40 ≤ (wxFold days).maxPop then
              "Some showers possible (peak ~" ++ toString (jsRound (wxFold days).maxPop) ++
                "%) — consider a light rain jacket."
            else "Low rain risk overall.") := by
  simp only [weatherLines, List.cons_append, List.nil_append,
    List.getElem?_cons_succ, List.getElem?_cons_zero]

/-! ## Claims -/

/-- C3: for a successful encyclopedia result with non-empty trimmed extract,
the synthesizer renders `"{title} — {snippet}"`; a trimmed extract of at most
480 characters is used unchanged with no ellipsis, while one of 481 or more
characters is cut to its first 480 characters, trailing whitespace of the cut
is trimmed, and an ellipsis marker is appended. -/
theorem wiki_snippet_truncation (title : String) (d : Option String) (extract : String)
    (th : Option String) (url lang : String) (h : jsTrim extract ≠ "") :
    (jsLen (jsTrim extract) ≤ 480 →
       summarizeWiki (.ok title d extract th url lang) =
         (if title = "" then "Summary" else title) ++ " — " ++ jsTrim extract)
    ∧ (481 ≤ jsLen (jsTrim extract) →
       summarizeWiki (.ok title d extract th url lang) =
         (if title = "" then "Summary" else title) ++ " — " ++
           (jsTrimEnd (jsSlice (jsTrim extract) 480) ++ "…")) := by
  constructor
  · intro hl
    simp only [summarizeWiki, if_neg h, if_neg (by omega : ¬ 480 < jsLen (jsTrim extract))]
  · intro hl
    simp only [summarizeWiki, if_neg h, if_pos (by omega : 480 < jsLen (jsTrim extract))]

set_option maxRecDepth 100000 in
/-- C3 witness: a 480-character extract is kept verbatim with no ellipsis; a
481-character extract is truncated to 480 characters plus the ellipsis. -/
theorem wiki_snippet_truncation_witness :
    summarizeWiki (.ok "T" none ⟨List.replicate 480 'a'⟩ none "u" "en") =
      (if ("T" : String) = "" then "Summary" else "T") ++ " — " ++ jsTrim ⟨List.replicate 480 'a'⟩
    ∧ summarizeWiki (.ok "T" none ⟨List.replicate 481 'a'⟩ none "u" "en") =
      (if ("T" : String) = "" then "Summary" else "T") ++ " — " ++
        (jsTrimEnd (jsSlice (jsTrim ⟨List.replicate 481 'a'⟩) 480) ++ "…") :=
  ⟨(wiki_snippet_truncation "T" none ⟨List.replicate 480 'a'⟩ none "u" "en"
      (by decide)).1 (by decide),
   (wiki_snippet_truncation "T" none ⟨List.replicate 481 'a'⟩ none "u" "en"
      (by decide)).2 (by decide)⟩

/-- C5: a successful forecast summary depends only on the first
`min(7, n)` day records, and a result with zero day records yields the
explicit no-daily-forecast sentence naming the location, which is not
empty. -/
theorem forecast_day_window (place : WeatherPlace) (tempUnit : String)
    (daily : List WeatherDay) :
    (daily = [] →
       summarizeWeatherIntent (.ok place tempUnit daily) =
         "I couldn\x27t find a daily forecast for " ++ weatherName place ++ "."
       ∧ summarizeWeatherIntent (.ok place tempUnit daily) ≠ "")
    ∧ summarizeWeatherIntent (.ok place tempUnit daily) =
        summarizeWeatherIntent (.ok place tempUnit (daily.take (min 7 daily.length))) := by
  constructor
  · rintro rfl
    constructor
    · simp [summarizeWeatherIntent]
    · simp only [summarizeWeatherIntent, if_pos rfl]
      rw [show ("I couldn\x27t find a daily forecast for " ++ weatherName place ++ "." : String)
            = ("I couldn\x27t find a daily forecast for " ++ (weatherName place ++ ".")) from rfl]
      exact append_ne_empty_left _ _ (by decide)
  · rcases eq_or_ne daily [] with rfl | hne
    · rfl
    · have hpos : 0 < daily.length := List.length_pos.mpr hne
      have htake : daily.take (min 7 daily.length) ≠ [] := by
        intro h
        rcases List.take_eq_nil_iff.mp h with h0 | h0
        · omega
        · exact hne h0
      simp only [summarizeWeatherIntent, if_neg hne, if_neg htake]
      rw [List.take_take, List.length_take]
      have h2 : 7 ⊓ (7 ⊓ daily.length ⊓ daily.length) ⊓ (7 ⊓ daily.length)
          = 7 ⊓ daily.length := by omega
      rw [h2]

/-- C5 witness: an empty daily list gives the fixed sentence, and a
one-day forecast is already its own 7-day window. -/
theorem forecast_day_window_witness :
    summarizeWeatherIntent (.ok ⟨"Tokyo", none, some "Japan", "tz"⟩ "°C" []) =
      "I couldn\x27t find a daily forecast for " ++ weatherName ⟨"Tokyo", none, some "Japan", "tz"⟩ ++ "."
    ∧ summarizeWeatherIntent (.ok ⟨"Tokyo", none, some "Japan", "tz"⟩ "°C" []) ≠ "" :=
  (forecast_day_window ⟨"Tokyo", none, some "Japan", "tz"⟩ "°C" []).1 rfl

/-- C7: the rain-risk sentence of a successful forecast summary is selected
by comparing the maximum finite per-day precipitation probability of the
first `min(7, n)` days (non-finite values skipped) against the fixed
thresholds 70 and 40, with the low-risk wording when no finite probability
exists. -/
theorem rain_risk_thresholds (place : WeatherPlace) (tempUnit : String)
    (daily : List WeatherDay) :
    ((∀ p ∈ (daily.take (min 7 daily.length)).filterMap WeatherDay.pop, p < 40) →
       (weatherLines (weatherName place) tempUnit (daily.take (min 7 daily.length)))[1]? =
         some "Low rain risk overall.")
    ∧ (∀ M ∈ (daily.take (min 7 daily.length)).filterMap WeatherDay.pop,
         (∀ p ∈ (daily.take (min 7 daily.length)).filterMap WeatherDay.pop, p ≤ M) →
         40 ≤ M → M < 70 →
         (weatherLines (weatherName place) tempUnit (daily.take (min 7 daily.length)))[1]? =
           some ("Some showers possible (peak ~" ++ toString (jsRound M) ++
             "%) — consider a light rain jacket."))
    ∧ (∀ M ∈ (daily.take (min 7 daily.length)).filterMap WeatherDay.pop,
         (∀ p ∈ (daily.take (min 7 daily.length)).filterMap WeatherDay.pop, p ≤ M) →
         70 ≤ M →
         (weatherLines (weatherName place) tempUnit (daily.take (min 7 daily.length)))[1]? =
           some ("Rain is likely (peak chance ~" ++ toString (jsRound M) ++
             "%) — pack rain gear (umbrella or waterproof jacket)."))
    ∧ (daily ≠ [] →
       summarizeWeatherIntent (.ok place tempUnit daily) =
         String.intercalate " "
           (weatherLines (weatherName place) tempUnit (daily.take (min 7 daily.length)))) := by
  set days := daily.take (min 7 daily.length) with hdays
  set pops := days.filterMap WeatherDay.pop with hpops
  have hfold : (wxFold days).maxPop = pops.foldl max (-1) := wxFold_maxPop days
  refine ⟨?_, ?_, ?_, ?_⟩
  · intro hlt
    rw [weatherLines_rain_sentence, hfold]
    have hm : pops.foldl max (-1) < 40 := by
      rcases foldl_max_cases pops (-1) with h | h
      · rw [h]; norm_num
      · exact hlt _ h
    rw [if_neg (by linarith), if_neg (by linarith)]
  · intro M hM hub h40 h70
    have hle : M ≤ pops.foldl max (-1) := mem_le_foldl_max pops (-1) M hM
    have heq : pops.foldl max (-1) = M := by
      rcases foldl_max_cases pops (-1) with h | h
      · rw [h] at hle; linarith
      · exact le_antisymm (hub _ h) hle
    rw [weatherLines_rain_sentence, hfold, heq, if_neg (by linarith), if_pos h40]
  · intro M hM hub h70
    have hle : M ≤ pops.foldl max (-1) := mem_le_foldl_max pops (-1) M hM
    have heq : pops.foldl max (-1) = M := by
      rcases foldl_max_cases pops (-1) with h | h
      · rw [h] at hle; linarith
      · exact le_antisymm (hub _ h) hle
    rw [weatherLines_rain_sentence, hfold, heq, if_pos h70]
  · intro hne
    simp only [summarizeWeatherIntent, if_neg hne]

/-- C7 witness: with a single day at 80% precipitation probability the
strong rain-gear sentence is selected. -/
theorem rain_risk_thresholds_witness :
    (weatherLines (weatherName ⟨"Tokyo", none, some "Japan", "tz"⟩) "°C"
        (([⟨"d1", some 10, some 20, some 80, none⟩] : List WeatherDay).take
          (min 7 ([⟨"d1", some 10, some 20, some 80, none⟩] : List WeatherDay).length)))[1]? =
      some ("Rain is likely (peak chance ~" ++ toString (jsRound 80) ++
        "%) — pack rain gear (umbrella or waterproof jacket).") :=
  (rain_risk_thresholds ⟨"Tokyo", none, some "Japan", "tz"⟩ "°C"
      [⟨"d1", some 10, some 20, some 80, none⟩]).2.2.1 80
    (by simp) (by simp) (by norm_num)

/-- C6: the planner's decision depends only on the first tool-call proposal
of the inference response — any additional proposals are ignored (the decode
is a pure function of the head) — and a first proposal whose name is not in
the closed set of known tools yields the no-tool decision. -/
theorem planner_first_proposal (c : AiToolCall) (rest rest' : List AiToolCall) :
    planWithAllTools (.obj (some (c :: rest))) = planWithAllTools (.obj (some (c :: rest')))
    ∧ (∀ n, c.name = some n → n ∉ knownToolNames →
        planWithAllTools (.obj (some (c :: rest))) = .noTool) := by
  constructor
  · rfl
  · intro n hn hmem
    rcases eq_or_ne n "" with rfl | h0
    · simp [planWithAllTools, hn]
    · simp [planWithAllTools, hn, h0, hmem]

/-- C6 witness: with an unknown first tool name the decision is no tool,
whatever the discarded second proposal says. -/
theorem planner_first_proposal_witness :
    planWithAllTools (.obj (some [⟨some "searchRouter", .undef⟩])) = .noTool :=
  (planner_first_proposal ⟨some "searchRouter", .undef⟩ []
      [⟨some "getWiki", .undef⟩]).2 "searchRouter" rfl (by decide)

/-- C8: issuing `reset` twice in a row yields the same empty-session state as
issuing it once at the second reset's time: the message log is empty, the
model identifier is preserved, and the creation/expiry timestamps are freshly
reset — a second reset changes nothing but the timestamps. -/
theorem reset_idempotent (s : AgentState) (o o' : Oracles) (tf tf' : Nat → Nat) :
    (onMessageM (onMessageM s .reset o tf).state .reset o' tf').state
        = (onMessageM s .reset o' tf').state
    ∧ (onMessageM (onMessageM s .reset o tf).state .reset o' tf').state.messages = []
    ∧ (onMessageM (onMessageM s .reset o tf).state .reset o' tf').state.model = s.model
    ∧ (onMessageM (onMessageM s .reset o tf).state .reset o' tf').state.createdAt = tf' 0
    ∧ (onMessageM (onMessageM s .reset o tf).state .reset o' tf').state.expiresAt
        = tf' 0 + DAY := by
  refine ⟨rfl, rfl, rfl, rfl, rfl⟩

/-- C9: in every reachable session state — the initial state and any chain of
row appends, model sets, resets and connect replays under a monotone clock —
the expiry timestamp is at least the creation timestamp. -/
theorem expiry_ge_creation (s : AgentState) (h : Reach s) :
    s.createdAt ≤ s.expiresAt := by
  induction h with
  | init t => simp only [initialState]; omega
  | push s role content tsv texp _ hle _ => simp only [pushMsgS, saveAssistantS]; omega
  | modelSet s m t _ hle _ => simp only [setModelS]; omega
  | reset s t _ _ => simp only [resetS]; omega
  | connect s rows t _ hle _ => simp only [connectReplayS]; omega

/-- C9 witness: the invariant at the freshly created session. -/
theorem expiry_ge_creation_witness :
    (initialState 0).createdAt ≤ (initialState 0).expiresAt :=
  expiry_ge_creation (initialState 0) (Reach.init 0)

/-- A sample oracle assignment, used only to instantiate witnesses. -/
def sampleOracles : Oracles :=
  ⟨AiOut.exn, .err "e", .err "e", .err "e", .notStream none⟩

/-- C10: a `model` frame whose model field is absent or empty leaves the
session state entirely unchanged (in particular the expiry window is not
extended) and sends no outbound frame; only a non-empty model string
mutates the state (setting the model and refreshing the expiry). -/
theorem model_frame_effect (s : AgentState) (o : Oracles) (tf : Nat → Nat) :
    onMessageM s (.modelFrame none) o tf = ⟨s, [], []⟩
    ∧ onMessageM s (.modelFrame (some "")) o tf = ⟨s, [], []⟩
    ∧ ∀ m : String, m ≠ "" →
        onMessageM s (.modelFrame (some m)) o tf = ⟨setModelS s m (tf 0), [], []⟩ := by
  refine ⟨rfl, by simp [onMessageM], fun m hm => ?_⟩
  simp [onMessageM, hm]

/-- C10 witness: a concrete non-empty model frame updates the model and the
expiry only. -/
theorem model_frame_effect_witness :
    onMessageM (initialState 0) (.modelFrame (some "@cf/meta/llama-3.1-8b-instruct"))
        sampleOracles (fun _ => 5) =
      ⟨setModelS (initialState 0) "@cf/meta/llama-3.1-8b-instruct" 5, [], []⟩ :=
  (model_frame_effect (initialState 0) sampleOracles (fun _ => 5)).2.2
    "@cf/meta/llama-3.1-8b-instruct" (by decide)

/-- C1: every chat turn that passes the empty-input check issues exactly one
planning call to the inference endpoint, and that single call presents the
schemas of all three available tools; no branch of the turn issues a second
planning call. -/
theorem planner_single_call (s : AgentState) (raw : String) (o : Oracles)
    (tf : Nat → Nat) (h : jsTrim raw ≠ "") :
    (onMessageM s (.chat raw) o tf).calls.filter AiCall.isPlan =
      [AiCall.plan [getWeatherToolSchema, getWikiToolSchema, getISSToolSchema]] := by
  simp only [onMessageM, if_neg h]
  unfold chatTurn
  cases hc : planWithAllTools o.planOut with
  | noTool => rfl
  | weather a => cases o.weatherRes with | ok p u d => rfl | err e => rfl
  | wiki a => cases o.wikiRes with | ok t d e th u l => rfl | err e => rfl
  | iss => cases o.issRes with | ok la lo al ve vi ts => rfl | err e => rfl

/-- C1 witness: a concrete non-empty chat turn with a failing planner still
issues exactly the one catalog-bearing planning call. -/
theorem planner_single_call_witness :
    (onMessageM (initialState 0) (.chat "hi") sampleOracles (fun _ => 0)).calls.filter
        AiCall.isPlan =
      [AiCall.plan [getWeatherToolSchema, getWikiToolSchema, getISSToolSchema]] :=
  planner_single_call (initialState 0) "hi" sampleOracles (fun _ => 0) (by decide)

/-- C2 counterexample: a stream that errors after the fragment `"Hello"` was
forwarded persists exactly `"Hello"`; the placeholder marker is NOT appended
to the partial content. -/
theorem stream_error_placeholder_counterexample :
    (streamAssistant (.stream ["Hello"] true)).1 = "Hello"
    ∧ (streamAssistant (.stream ["Hello"] true)).1 ≠ "Hello" ++ placeholderText := by
  exact ⟨rfl, by decide⟩

/-- C2 (amended): when the stream errors after some content was already
forwarded, the persisted final assistant message equals exactly the
accumulated partial content — the placeholder marker is NOT appended — and
the turn still terminates normally (the done frame is sent and the message is
persisted); the placeholder text is persisted only when the error arrives
before any content was accumulated. -/
theorem stream_error_partial_persisted (pieces : List String)
    (h : (streamAccum pieces).1 ≠ "") :
    (streamAssistant (.stream pieces true)).1 = (streamAccum pieces).1
    ∧ (streamAssistant (.stream pieces true)).2 = (streamAccum pieces).2 ++ [OutFrame.done]
    ∧ (∀ (s : AgentState) (text : String) (o : Oracles) (tf : Nat → Nat),
        planWithAllTools o.planOut = .noTool → o.streamOut = .stream pieces true →
        (chatTurn s text o tf).state.messages =
          s.messages ++ [⟨Role.user, text, tf 0⟩,
                         ⟨Role.assistant, (streamAccum pieces).1, tf 2⟩])
    ∧ (streamAssistant (.stream ([] : List String) true)).1 = placeholderText := by
  have h1 : (streamAssistant (.stream pieces true)).1 = (streamAccum pieces).1 := by
    simp [streamAssistant, if_neg h]
  refine ⟨h1, rfl, ?_, rfl⟩
  intro s text o tf hp hs
  simp only [chatTurn, hp, hs, h1, saveAssistantS, pushMsgS, List.append_assoc,
    List.cons_append, List.nil_append]

/-- C2 witness: the amended behavior at the concrete errored stream. -/
theorem stream_error_partial_persisted_witness :
    (streamAssistant (.stream ["Hello"] true)).1 = (streamAccum ["Hello"]).1 :=
  (stream_error_partial_persisted ["Hello"] (by decide)).1

/-- Oracle assignment for the C4 witness: the planner proposes `getISS` and
the adapter fails. -/
def issFailOracles : Oracles :=
  ⟨.obj (some [⟨some "getISS", .undef⟩]), .err "w", .err "k", .err "boom", .notStream none⟩

/-- C4: when the chosen tool adapter returns a failure, the turn emits an
error progress notification, persists the fixed apologetic assistant
message, and terminates with no tool-role row: the log gains exactly the
user row, the acknowledgement assistant row and the apology assistant row. -/
theorem tool_failure_turn (s : AgentState) (text : String) (o : Oracles)
    (tf : Nat → Nat) (e : String) :
    (planWithAllTools o.planOut = .iss → o.issRes = .err e →
       msgView (chatTurn s text o tf).state.messages =
         msgView s.messages ++
           [(Role.user, text), (Role.assistant, issAck), (Role.assistant, issApology)]
       ∧ OutFrame.tool "getISS" "error" (some e) false ∈ (chatTurn s text o tf).frames)
    ∧ (∀ args, planWithAllTools o.planOut = .weather args → o.weatherRes = .err e →
       msgView (chatTurn s text o tf).state.messages =
         msgView s.messages ++
           [(Role.user, text), (Role.assistant, weatherAck), (Role.assistant, weatherApology)]
       ∧ OutFrame.tool "getWeather" "error" (some e) false ∈ (chatTurn s text o tf).frames)
    ∧ (∀ args, planWithAllTools o.planOut = .wiki args → o.wikiRes = .err e →
       msgView (chatTurn s text o tf).state.messages =
         msgView s.messages ++
           [(Role.user, text), (Role.assistant, wikiAck), (Role.assistant, wikiApology)]
       ∧ OutFrame.tool "getWiki" "error" (some e) false ∈ (chatTurn s text o tf).frames) := by
  refine ⟨fun hp hr => ⟨?_, ?_⟩, fun args hp hr => ⟨?_, ?_⟩, fun args hp hr => ⟨?_, ?_⟩⟩
  · simp [chatTurn, hp, hr, msgView, pushMsgS, saveAssistantS]
  · simp [chatTurn, hp, hr]
  · simp [chatTurn, hp, hr, msgView, pushMsgS, saveAssistantS]
  · simp [chatTurn, hp, hr]
  · simp [chatTurn, hp, hr, msgView, pushMsgS, saveAssistantS]
  · simp [chatTurn, hp, hr]

/-- C4 witness: a concrete `getISS` failure turn persists exactly the user
row, the acknowledgement and the apology, and emits the error
notification. -/
theorem tool_failure_turn_witness :
    msgView (chatTurn (initialState 0) "where is the ISS" issFailOracles
        (fun _ => 0)).state.messages =
      msgView (initialState 0).messages ++
        [(Role.user, "where is the ISS"), (Role.assistant, issAck), (Role.assistant, issApology)]
    ∧ OutFrame.tool "getISS" "error" (some "boom") false ∈
        (chatTurn (initialState 0) "where is the ISS" issFailOracles (fun _ => 0)).frames :=
  (tool_failure_turn (initialState 0) "where is the ISS" issFailOracles
      (fun _ => 0) "boom").1 rfl rfl

end CfAgents
